import Mathlib

/-!
# Verification of the image-vectorizer request/response lifecycle

Shallow embedding of the two source files of the repository:

* `src/services/geminiService.ts` — the Generation Client
  (`fileToBase64`, `editImageWithPrompt`);
* `src/App.tsx` — the Interaction Controller
  (`handleImageUpload`, `handleGenerate`, `handleDownload` and the
  derived view / lifecycle state).

Binary data is modelled as `List Nat` (bytes), strings as Lean `String`.
The platform base64 codec (FileReader `readAsDataURL`, data-URI decoding)
is modelled by a standard base64 implementation over byte lists.
The external backend is a parameter `backend : BackendRequest → Except
String GenResponse`, so that theorems quantify over every possible
backend behaviour, and `editImageWithPrompt` also returns the list of
requests it issued, so that "no network call" is a provable statement.
-/

namespace ImageVectorizer

/-! ## Base64 (platform codec model) -/

/-- The standard base64 alphabet, index `v` holding the digit for
sextet value `v`. -/
def b64Chars : List Char :=
  "ABCDEFGHIJKLMNOPQRSTUVWXYZabcdefghijklmnopqrstuvwxyz0123456789+/".data

/-- Digit character for a sextet value (`'='` is never produced for
values below 64, which is all the encoder uses). -/
def sextetToChar (v : Nat) : Char := b64Chars.getD v '='

/-- Sextet value of a base64 digit character, `none` for characters
outside the alphabet (in particular for the padding `'='`). -/
def charToSextet (c : Char) : Option Nat :=
  if b64Chars.indexOf c < b64Chars.length then some (b64Chars.indexOf c) else none

/-- Base64-encode a byte list, three bytes to four digits, padding the
final partial group with `'='`. -/
def encodeGroups : List Nat → List Char
  | [] => []
  | [a] => [sextetToChar (a / 4), sextetToChar (a % 4 * 16), '=', '=']
  | [a, b] =>
      [sextetToChar (a / 4), sextetToChar (a % 4 * 16 + b / 16), sextetToChar (b % 16 * 4), '=']
  | a :: b :: c :: rest =>
      sextetToChar (a / 4) :: sextetToChar (a % 4 * 16 + b / 16) ::
      sextetToChar (b % 16 * 4 + c / 64) :: sextetToChar (c % 64) :: encodeGroups rest

/-- Base64-decode a digit list, the inverse of `encodeGroups`; `none`
on malformed input. -/
def decodeGroups : List Char → Option (List Nat)
  | [] => some []
  | c1 :: c2 :: c3 :: c4 :: rest =>
    match charToSextet c1, charToSextet c2 with
    | some v1, some v2 =>
      if c3 = '=' then
        if c4 = '=' ∧ rest = [] then some [v1 * 4 + v2 / 16] else none
      else
        match charToSextet c3 with
        | some v3 =>
          if c4 = '=' then
            if rest = [] then some [v1 * 4 + v2 / 16, v2 % 16 * 16 + v3 / 4] else none
          else
            match charToSextet c4, decodeGroups rest with
            | some v4, some bs =>
                some ((v1 * 4 + v2 / 16) :: (v2 % 16 * 16 + v3 / 4) :: (v3 % 4 * 64 + v4) :: bs)
            | _, _ => none
        | none => none
    | _, _ => none
  | _ => none

/-- Base64 encoding of a byte list, as a string. -/
def base64Encode (bs : List Nat) : String := String.mk (encodeGroups bs)

/-- Base64 decoding of a string back to a byte list. -/
def base64Decode (s : String) : Option (List Nat) := decodeGroups s.data

theorem charToSextet_sextetToChar : ∀ v < 64, charToSextet (sextetToChar v) = some v := by
  decide

theorem sextetToChar_ne_pad : ∀ v < 64, sextetToChar v ≠ '=' := by
  decide

/-- Round trip at the digit-list level: decoding an encoded byte list
recovers the bytes exactly. -/
theorem decodeGroups_encodeGroups :
    ∀ bs : List Nat, (∀ b ∈ bs, b < 256) → decodeGroups (encodeGroups bs) = some bs
  | [], _ => by decide
  | [a], h => by
    have ha : a < 256 := h a (by simp)
    have h1 := charToSextet_sextetToChar (a / 4) (by omega)
    have h2 := charToSextet_sextetToChar (a % 4 * 16) (by omega)
    simp only [encodeGroups, decodeGroups, h1, h2, if_pos rfl, and_self, reduceIte,
      Option.some.injEq, List.cons.injEq, and_true]
    omega
  | [a, b], h => by
    have ha : a < 256 := h a (by simp)
    have hb : b < 256 := h b (by simp)
    have h1 := charToSextet_sextetToChar (a / 4) (by omega)
    have h2 := charToSextet_sextetToChar (a % 4 * 16 + b / 16) (by omega)
    have h3 := charToSextet_sextetToChar (b % 16 * 4) (by omega)
    have h3ne := sextetToChar_ne_pad (b % 16 * 4) (by omega)
    simp only [encodeGroups, decodeGroups, h1, h2, h3, if_neg h3ne, if_pos rfl, reduceIte,
      Option.some.injEq, List.cons.injEq, and_true]
    constructor
    · omega
    · omega
  | a :: b :: c :: rest, h => by
    have ha : a < 256 := h a (by simp)
    have hb : b < 256 := h b (by simp)
    have hc : c < 256 := h c (by simp)
    have h1 := charToSextet_sextetToChar (a / 4) (by omega)
    have h2 := charToSextet_sextetToChar (a % 4 * 16 + b / 16) (by omega)
    have h3 := charToSextet_sextetToChar (b % 16 * 4 + c / 64) (by omega)
    have h4 := charToSextet_sextetToChar (c % 64) (by omega)
    have h3ne := sextetToChar_ne_pad (b % 16 * 4 + c / 64) (by omega)
    have h4ne := sextetToChar_ne_pad (c % 64) (by omega)
    have ih := decodeGroups_encodeGroups rest (fun x hx => h x (by simp [hx]))
    simp only [encodeGroups, decodeGroups, h1, h2, h3, h4, if_neg h3ne, if_neg h4ne, ih]
    refine congrArg some ?_
    have e1 : a / 4 * 4 + (a % 4 * 16 + b / 16) / 16 = a := by omega
    have e2 : (a % 4 * 16 + b / 16) % 16 * 16 + (b % 16 * 4 + c / 64) / 4 = b := by omega
    have e3 : (b % 16 * 4 + c / 64) % 4 * 64 + c % 64 = c := by omega
    rw [e1, e2, e3]

/-- String-level round trip of the platform base64 codec. -/
theorem base64Decode_base64Encode (bs : List Nat) (h : ∀ b ∈ bs, b < 256) :
    base64Decode (base64Encode bs) = some bs := by
  simpa [base64Decode, base64Encode] using decodeGroups_encodeGroups bs h

/-! ## Substring containment (to formalise "message indicating ...") -/

/-- `firstMatches p l` is true when `p` is an initial segment of `l`. -/
def firstMatches : List Char → List Char → Bool
  | [], _ => true
  | _ :: _, [] => false
  | p :: ps, c :: cs => p = c && firstMatches ps cs

/-- `occursIn p l` is true when `p` occurs contiguously somewhere in `l`. -/
def occursIn (p : List Char) : List Char → Bool
  | [] => firstMatches p []
  | c :: rest => firstMatches p (c :: rest) || occursIn p rest

/-- A message "indicates that the prompt may have been blocked or that
no image data was found" when it mentions either blocking or image
data. -/
def mentionsBlockedOrNoImageData (msg : String) : Bool :=
  occursIn "blocked".data msg.data || occursIn "image data".data msg.data

/-! ## Generation Client (`src/services/geminiService.ts`) -/

/-- A user-selected file: its bytes, its declared media type, and
whether the platform `FileReader` can read it (reads of an unreadable
file fire `onerror`). -/
structure ImageFile where
  bytes : List Nat
  mimeType : String
  readable : Bool
deriving Repr, DecidableEq

/-- Message of the rejection in `fileToBase64` when the data-URL split
yields an empty payload. -/
def emptyFileMsg : String :=
  "Failed to convert file to base64. The file might be empty or corrupt."

/-- Stand-in for the `FileReader` `onerror` rejection value. -/
def readErrorMsg : String := "FileReader error"

/-- `fileToBase64` from `src/services/geminiService.ts`: read the file
as a data URL, split off the part after the comma, reject when the
reader errors or the payload is empty (falsy). -/
def fileToBase64 (file : ImageFile) : Except String String :=
  if file.readable = false then Except.error readErrorMsg
  else
    let base64Data := base64Encode file.bytes
    if base64Data = "" then Except.error emptyFileMsg
    else Except.ok base64Data

/-- Response modality constants of the backend SDK. -/
inductive Modality where
  | IMAGE
  | TEXT
deriving Repr, DecidableEq

/-- Inline binary data carried by a content part: encoded payload plus
media type. -/
structure InlineData where
  data : String
  mimeType : String
deriving Repr, DecidableEq

/-- A content part of a request or of a response, optionally carrying
inline image data and optionally text. -/
structure Part where
  inlineData : Option InlineData := none
  text : Option String := none
deriving Repr, DecidableEq

/-- The single request `editImageWithPrompt` sends through
`ai.models.generateContent`. -/
structure BackendRequest where
  model : String
  parts : List Part
  responseModalities : List Modality
deriving Repr, DecidableEq

/-- A response candidate's content: an optional list of parts. -/
structure Content where
  parts : Option (List Part)
deriving Repr, DecidableEq

/-- A response candidate: optional content. -/
structure Candidate where
  content : Option Content
deriving Repr, DecidableEq

/-- A backend response: an optional candidate list. -/
structure GenResponse where
  candidates : Option (List Candidate)
deriving Repr, DecidableEq

/-- The optional chain `response.candidates?.[0]?.content?.parts || []`. -/
def responseParts (r : GenResponse) : List Part :=
  match r.candidates with
  | none => []
  | some cs =>
    match cs.head? with
    | none => []
    | some cand =>
      match cand.content with
      | none => []
      | some ct => ct.parts.getD []

/-- The extraction loop of `editImageWithPrompt`: first part whose
`inlineData` is present, returning its `data` field. -/
def firstInlineData : List Part → Option String
  | [] => none
  | p :: rest =>
    match p.inlineData with
    | some d => some d.data
    | none => firstInlineData rest

/-- Message of the error thrown when `process.env.API_KEY` is falsy. -/
def apiKeyMsg : String :=
  "API_KEY environment variable not set. Please ensure it\x27s configured."

/-- Message of the error thrown inside the `try` block when the
response holds no inline image data. -/
def noImageMsg : String :=
  "No image data found in the API response. The prompt may have been blocked or the model could not generate an image."

/-- Message of the error re-thrown by the `catch` block. -/
def genericFailMsg : String :=
  "Failed to generate image. Please check your prompt or try a different image."

/-- JavaScript truthiness of an optional string (`undefined` and `""`
are falsy). -/
def isTruthy : Option String → Bool
  | none => false
  | some s => s ≠ ""

/-- The body of the `try` block of `editImageWithPrompt`: one backend
call followed by the extraction scan; throws `noImageMsg` when no part
carries inline data. -/
def tryBlock (backend : BackendRequest → Except String GenResponse)
    (req : BackendRequest) : Except String String :=
  match backend req with
  | Except.error e => Except.error e
  | Except.ok response =>
    match firstInlineData (responseParts response) with
    | some d => Except.ok d
    | none => Except.error noImageMsg

/-- `editImageWithPrompt` from `src/services/geminiService.ts`.
`apiKey` is `process.env.API_KEY`; `backend` models
`ai.models.generateContent` (an `Except.error` is a transport/backend
exception). Returns the list of backend requests issued alongside the
result, so that "no network call" is expressible. The `catch` wraps
the backend call *and* the extraction scan, so every error raised
there — including `noImageMsg` — is replaced by `genericFailMsg`. -/
def editImageWithPrompt (apiKey : Option String)
    (backend : BackendRequest → Except String GenResponse)
    (imageFile : ImageFile) (prompt : String) :
    List BackendRequest × Except String String :=
  if isTruthy apiKey = false then
    ([], Except.error apiKeyMsg)
  else
    match fileToBase64 imageFile with
    | Except.error e => ([], Except.error e)
    | Except.ok base64Data =>
      let req : BackendRequest :=
        { model := "gemini-2.5-flash-image"
          parts := [{ inlineData := some { data := base64Data, mimeType := imageFile.mimeType } },
                    { text := some ("Apply the following edit to the image: " ++ prompt) }]
          responseModalities := [Modality.IMAGE] }
      match tryBlock backend req with
      | Except.ok d => ([req], Except.ok d)
      | Except.error _ => ([req], Except.error genericFailMsg)

/-! ## Interaction Controller (`src/App.tsx`) -/

/-- The React state of `App`: the six `useState` hooks. Object URLs
(the result of `URL.createObjectURL`) are modelled as numeric
handles. -/
structure AppState where
  originalImageFile : Option ImageFile
  originalImageUrl : Option Nat
  editedImageUrl : Option String
  prompt : String
  isLoading : Bool
  error : Option String
deriving Repr, DecidableEq

/-- The browser's object-URL registry: the next fresh handle, every
handle ever created, and every handle revoked. -/
structure UrlEnv where
  nextUrl : Nat
  created : List Nat
  revoked : List Nat
deriving Repr, DecidableEq

/-- `URL.createObjectURL`: allocate a fresh handle. -/
def createObjectURL (e : UrlEnv) : Nat × UrlEnv :=
  (e.nextUrl, { nextUrl := e.nextUrl + 1, created := e.created ++ [e.nextUrl], revoked := e.revoked })

/-- Handles created and never revoked: the preview resources still
held. -/
def liveUrls (e : UrlEnv) : List Nat :=
  e.created.filter (fun u => !(e.revoked.contains u))

/-- The initial React state of `App`. -/
def initialState : AppState :=
  { originalImageFile := none, originalImageUrl := none, editedImageUrl := none,
    prompt := "", isLoading := false, error := none }

/-- A fresh browser environment. -/
def initialEnv : UrlEnv := { nextUrl := 0, created := [], revoked := [] }

/-- The derived five-way view state of the output panel, after the
render chain `isLoading ? Loader : error ? ErrorDisplay :
editedImageUrl ? ImagePreview : OutputPlaceholder`. -/
inductive ViewState where
  | loader
  | errorView (msg : String)
  | resultView (uri : String)
  | placeholder
deriving Repr, DecidableEq

/-- What the output panel renders, following the conditional chain of
`App`'s JSX exactly. -/
def renderOutput (s : AppState) : ViewState :=
  if s.isLoading then ViewState.loader
  else
    match s.error with
    | some m => ViewState.errorView m
    | none =>
      match s.editedImageUrl with
      | some u => ViewState.resultView u
      | none => ViewState.placeholder

/-- The spec's `LifecycleState` enumeration. -/
inductive LifecycleState where
  | Idle
  | Loading
  | Succeeded
  | Failed
deriving Repr, DecidableEq

/-- The lifecycle phase, as derived from the rendered view. -/
def lifecycleState (s : AppState) : LifecycleState :=
  match renderOutput s with
  | ViewState.loader => LifecycleState.Loading
  | ViewState.errorView _ => LifecycleState.Failed
  | ViewState.resultView _ => LifecycleState.Succeeded
  | ViewState.placeholder => LifecycleState.Idle

/-- Guidance message set by `handleGenerate` on a precondition
violation. -/
def guidanceMsg : String := "Please upload an image and select a style or enter a prompt."

/-- Fallback when a caught error has a falsy `message`. -/
def unknownErrMsg : String := "An unknown error occurred."

/-- `handleImageUpload` from `src/App.tsx`: with a file present, store
it, create a fresh object URL as the preview, clear the edited image
and the error. No `URL.revokeObjectURL` call appears in the source, so
the environment's `revoked` list is untouched. -/
def handleImageUpload (file? : Option ImageFile) (s : AppState) (e : UrlEnv) :
    AppState × UrlEnv :=
  match file? with
  | none => (s, e)
  | some file =>
    let (url, e2) := createObjectURL e
    ({ s with originalImageFile := some file, originalImageUrl := some url,
              editedImageUrl := none, error := none }, e2)

/-- `handleStyleClick` / the textarea `onChange`: overwrite the
prompt. -/
def handleSetPrompt (v : String) (s : AppState) : AppState := { s with prompt := v }

/-- The synchronous part of `handleGenerate`, up to the `await`: the
precondition check, then `setIsLoading(true)`, `setError(null)`,
`setEditedImageUrl(null)`. The boolean reports whether the backend
call is initiated. -/
def handleGenerateStart (s : AppState) : AppState × Bool :=
  if s.originalImageFile = none ∨ s.prompt = "" then
    ({ s with error := some guidanceMsg }, false)
  else
    ({ s with isLoading := true, error := none, editedImageUrl := none }, true)

/-- The continuation of `handleGenerate` after the awaited client call
resolves: on success prepend the PNG data-URI label; on error show
`e.message || unknownErrMsg`; `finally` clears the loading flag.
There is no staleness check — the outcome is applied to whatever state
is current on arrival. -/
def handleGenerateComplete (outcome : Except String String) (s : AppState) : AppState :=
  match outcome with
  | Except.ok base64Data =>
    { s with editedImageUrl := some ("data:image/png;base64," ++ base64Data),
             isLoading := false }
  | Except.error msg =>
    { s with error := some (if msg = "" then unknownErrMsg else msg), isLoading := false }

/-- A whole `handleGenerate` run in which the awaited call resolves
with no interleaved event: the start step, then — only when a call was
initiated — the client call on the snapshot of file and prompt,
and its completion. Also returns the backend requests issued. -/
def handleGenerate (apiKey : Option String)
    (backend : BackendRequest → Except String GenResponse)
    (s : AppState) : AppState × List BackendRequest :=
  let (s1, proceed) := handleGenerateStart s
  if proceed then
    match s.originalImageFile with
    | some file =>
      let (reqs, result) := editImageWithPrompt apiKey backend file s.prompt
      (handleGenerateComplete result s1, reqs)
    | none => (s1, [])
  else (s1, [])

/-- `handleDownload` from `src/App.tsx`: `none` when there is no
edited image (no export), otherwise the anchor's `href` and fixed
`download` name. -/
def handleDownload (s : AppState) : Option (String × String) :=
  match s.editedImageUrl with
  | none => none
  | some url => some (url, "gemini-styled-image.png")

/-! ### Event-trace semantics

The controller is single-threaded and event-driven: user events and
promise resolutions interleave on one control thread. A
`generateComplete o` event is the resolution of a previously started
client call with outcome `o`; the environment (network timing) chooses
the arrival order. -/

/-- One controller event. -/
inductive Event where
  | upload (file? : Option ImageFile)
  | setPrompt (v : String)
  | generateStart
  | generateComplete (outcome : Except String String)

/-- One step of the controller under an event. -/
def step : AppState × UrlEnv → Event → AppState × UrlEnv
  | (s, e), Event.upload file? => handleImageUpload file? s e
  | (s, e), Event.setPrompt v => (handleSetPrompt v s, e)
  | (s, e), Event.generateStart => ((handleGenerateStart s).1, e)
  | (s, e), Event.generateComplete o => (handleGenerateComplete o s, e)

/-- Run a list of events from a starting configuration. -/
def run (init : AppState × UrlEnv) (evts : List Event) : AppState × UrlEnv :=
  evts.foldl step init

/-- The byte content a user obtains by exporting a PNG data URI: the
base64 payload after the `data:image/png;base64,` label, decoded. -/
def exportedBytes (uri : String) : Option (List Nat) :=
  if uri.data.take 22 = "data:image/png;base64,".data then
    decodeGroups (uri.data.drop 22)
  else none

/-! ## Helper lemmas -/

theorem string_data_append (a b : String) : (a ++ b).data = a.data ++ b.data := rfl

theorem base64Encode_ne_empty (bs : List Nat) (h : bs ≠ []) : base64Encode bs ≠ "" := by
  intro hc
  have hdata : (base64Encode bs).data = [] := by rw [hc]
  rcases bs with _ | ⟨a, _ | ⟨b, _ | ⟨c, r⟩⟩⟩
  · exact h rfl
  all_goals simp [base64Encode, encodeGroups] at hdata

theorem fileToBase64_ok (file : ImageFile) (hread : file.readable = true)
    (hbytes : file.bytes ≠ []) :
    fileToBase64 file = Except.ok (base64Encode file.bytes) := by
  simp [fileToBase64, hread, base64Encode_ne_empty file.bytes hbytes]

theorem firstInlineData_eq_of_split (before : List Part)
    (hbefore : ∀ q ∈ before, q.inlineData = none)
    (p : Part) (rest : List Part) (d : InlineData) (hp : p.inlineData = some d) :
    firstInlineData (before ++ p :: rest) = some d.data := by
  induction before with
  | nil => simp [firstInlineData, hp]
  | cons q qs ih =>
    have hq : q.inlineData = none := hbefore q (by simp)
    simp only [List.cons_append, firstInlineData, hq]
    exact ih (fun x hx => hbefore x (by simp [hx]))

theorem exportedBytes_pngUri (payload : String) :
    exportedBytes ("data:image/png;base64," ++ payload) = decodeGroups payload.data := by
  have hdata : ("data:image/png;base64," ++ payload).data =
      "data:image/png;base64,".data ++ payload.data := rfl
  have hlen : ("data:image/png;base64,".data).length = 22 := by decide
  have htake : ("data:image/png;base64,".data ++ payload.data).take 22 =
      "data:image/png;base64,".data := by
    rw [← hlen]; exact List.take_left _ _
  have hdrop : ("data:image/png;base64,".data ++ payload.data).drop 22 = payload.data := by
    rw [← hlen]; exact List.drop_left _ _
  simp [exportedBytes, hdata, htake, hdrop]

theorem editImageWithPrompt_no_key (backend : BackendRequest → Except String GenResponse)
    (file : ImageFile) (prompt : String) (apiKey : Option String)
    (hkey : isTruthy apiKey = false) :
    editImageWithPrompt apiKey backend file prompt = ([], Except.error apiKeyMsg) := by
  simp [editImageWithPrompt, hkey]

theorem editImageWithPrompt_encode_error (backend : BackendRequest → Except String GenResponse)
    (file : ImageFile) (prompt : String) (apiKey : Option String) (m : String)
    (hkey : isTruthy apiKey = true) (hm : fileToBase64 file = Except.error m) :
    editImageWithPrompt apiKey backend file prompt = ([], Except.error m) := by
  simp [editImageWithPrompt, hkey, hm]

/-- The request `editImageWithPrompt` builds for a given payload and
prompt. -/
def builtRequest (b64 : String) (mimeType : String) (prompt : String) : BackendRequest :=
  { model := "gemini-2.5-flash-image"
    parts := [{ inlineData := some { data := b64, mimeType := mimeType } },
              { text := some ("Apply the following edit to the image: " ++ prompt) }]
    responseModalities := [Modality.IMAGE] }

theorem editImageWithPrompt_eq_of_ok (apiKey : Option String)
    (backend : BackendRequest → Except String GenResponse)
    (file : ImageFile) (prompt : String)
    (hkey : isTruthy apiKey = true) (hread : file.readable = true)
    (hbytes : file.bytes ≠ []) :
    editImageWithPrompt apiKey backend file prompt =
      (match tryBlock backend (builtRequest (base64Encode file.bytes) file.mimeType prompt) with
       | Except.ok d => ([builtRequest (base64Encode file.bytes) file.mimeType prompt], Except.ok d)
       | Except.error _ =>
         ([builtRequest (base64Encode file.bytes) file.mimeType prompt],
          Except.error genericFailMsg)) := by
  simp [editImageWithPrompt, hkey, fileToBase64_ok file hread hbytes, builtRequest]

theorem handleGenerate_eq (apiKey : Option String)
    (backend : BackendRequest → Except String GenResponse)
    (s : AppState) (file : ImageFile)
    (hfile : s.originalImageFile = some file) (hprompt : s.prompt ≠ "") :
    handleGenerate apiKey backend s =
      (handleGenerateComplete (editImageWithPrompt apiKey backend file s.prompt).2
        { s with isLoading := true, error := none, editedImageUrl := none },
       (editImageWithPrompt apiKey backend file s.prompt).1) := by
  have hpre : ¬(s.originalImageFile = none ∨ s.prompt = "") := by
    simp [hfile, hprompt]
  rcases hsplit : editImageWithPrompt apiKey backend file s.prompt with ⟨reqs, res⟩
  simp [handleGenerate, handleGenerateStart, hpre, hfile, hprompt, hsplit]

/-! ## Claims -/

/-! ### C1 — response with no image-bearing part -/

/-- A readable three-byte PNG file. -/
def fileC1 : ImageFile := { bytes := [1, 2, 3], mimeType := "image/png", readable := true }

/-- A content part carrying only text. -/
def partTextOnly : Part := { text := some "I cannot edit this image." }

/-- A response whose only content part is text. -/
def respTextOnly : GenResponse :=
  { candidates := some [{ content := some { parts := some [partTextOnly] } }] }

/-- A backend that always answers with the text-only response. -/
def backendC1 : BackendRequest → Except String GenResponse := fun _ => Except.ok respTextOnly

/-- Controller state with `fileC1` selected and prompt `"Anime style"`. -/
def stateC1 : AppState :=
  { initialState with originalImageFile := some fileC1, prompt := "Anime style" }

/-- C1, counterexample. With a backend response containing only a text
part, the controller does end in `Failed`, but the displayed message is
the generic `genericFailMsg`, which mentions neither blocking nor image
data: the `noImageMsg` diagnostic is swallowed by the `catch` block. -/
theorem C1_counterexample :
    (handleGenerate (some "key") backendC1 stateC1).1.error = some genericFailMsg ∧
    lifecycleState (handleGenerate (some "key") backendC1 stateC1).1 = LifecycleState.Failed ∧
    mentionsBlockedOrNoImageData genericFailMsg = false ∧
    mentionsBlockedOrNoImageData noImageMsg = true := by decide

/-- C1 (amended): for every backend response with no image-bearing
content part, the Generation Client fails — but the no-image
diagnostic is caught by the translate step, so the surfaced error is
the generic `genericFailMsg`, and the Controller ends in
`LifecycleState.Failed` displaying that generic message. -/
theorem C1_no_image_part_generic_failure (apiKey : Option String)
    (backend : BackendRequest → Except String GenResponse)
    (s : AppState) (file : ImageFile) (resp : GenResponse)
    (hkey : isTruthy apiKey = true)
    (hfile : s.originalImageFile = some file)
    (hread : file.readable = true) (hbytes : file.bytes ≠ [])
    (hprompt : s.prompt ≠ "")
    (hresp : ∀ req, backend req = Except.ok resp)
    (hnoimg : firstInlineData (responseParts resp) = none) :
    (editImageWithPrompt apiKey backend file s.prompt).2 = Except.error genericFailMsg ∧
    lifecycleState (handleGenerate apiKey backend s).1 = LifecycleState.Failed ∧
    (handleGenerate apiKey backend s).1.error = some genericFailMsg := by
  have hclient : editImageWithPrompt apiKey backend file s.prompt =
      ([builtRequest (base64Encode file.bytes) file.mimeType s.prompt],
       Except.error genericFailMsg) := by
    rw [editImageWithPrompt_eq_of_ok apiKey backend file s.prompt hkey hread hbytes]
    simp [tryBlock, hresp, hnoimg]
  have hrun := handleGenerate_eq apiKey backend s file hfile hprompt
  rw [hclient] at hrun
  refine ⟨by rw [hclient], ?_, ?_⟩
  · rw [hrun]
    simp [handleGenerateComplete, genericFailMsg, lifecycleState, renderOutput]
  · rw [hrun]
    simp [handleGenerateComplete, genericFailMsg]

/-- C1, witness: the amended theorem applied to the concrete text-only
scenario. -/
theorem C1_no_image_part_generic_failure_witness :
    (editImageWithPrompt (some "key") backendC1 fileC1 stateC1.prompt).2 =
      Except.error genericFailMsg ∧
    lifecycleState (handleGenerate (some "key") backendC1 stateC1).1 = LifecycleState.Failed ∧
    (handleGenerate (some "key") backendC1 stateC1).1.error = some genericFailMsg :=
  C1_no_image_part_generic_failure (some "key") backendC1 stateC1 fileC1 respTextOnly
    (by decide) rfl rfl (by decide) (by decide) (fun _ => rfl) (by decide)

/-! ### C2 — overlapping Generate() invocations -/

/-- A readable one-byte file. -/
def fileC2 : ImageFile := { bytes := [1], mimeType := "image/png", readable := true }

/-- Controller state with `fileC2` selected and a non-empty prompt. -/
def stateC2 : AppState :=
  { initialState with originalImageFile := some fileC2, prompt := "p" }

/-- Two `Generate()` calls started back to back; the second call's
outcome `o2` arrives first, the first call's outcome `o1` arrives
last. -/
def overlapTrace (o1 o2 : Except String String) : List Event :=
  [Event.generateStart, Event.generateStart,
   Event.generateComplete o2, Event.generateComplete o1]

/-- C2, counterexample. The first call resolves with image `"AAAA"`
after the second resolved with `"BBBB"`: the first call's outcome is
applied on arrival and overwrites the second's, so the displayed result
is `AAAA`, not `BBBB` as the claim requires. -/
theorem C2_counterexample :
    (run (stateC2, initialEnv) (overlapTrace (Except.ok "AAAA") (Except.ok "BBBB"))).1.editedImageUrl =
      some "data:image/png;base64,AAAA" ∧
    (run (stateC2, initialEnv) (overlapTrace (Except.ok "AAAA") (Except.ok "BBBB"))).1.editedImageUrl ≠
      some "data:image/png;base64,BBBB" := by decide

/-- C2 (amended): `handleGenerate` has no staleness guard, so outcomes
of overlapping calls are applied unconditionally in arrival order —
the outcome that resolves last determines `GenerationResult`, even
when it belongs to the superseded first call. -/
theorem C2_outcomes_apply_in_arrival_order (s : AppState) (e : UrlEnv)
    (o1 o2 : Except String String) (d1 : String) :
    (run (s, e) (overlapTrace o1 o2)).1 =
      handleGenerateComplete o1 (handleGenerateComplete o2
        (handleGenerateStart (handleGenerateStart s).1).1) ∧
    (run (s, e) (overlapTrace (Except.ok d1) o2)).1.editedImageUrl =
      some ("data:image/png;base64," ++ d1) :=
  ⟨rfl, rfl⟩

/-! ### C3 — Generate() precondition violation -/

/-- An arbitrary backend for the C3 witness. -/
def backendC3 : BackendRequest → Except String GenResponse :=
  fun _ => Except.ok { candidates := none }

/-- C3: with no image selected or an empty prompt, `handleGenerate`
only sets the guidance error: no backend request is issued, the
lifecycle displays `Failed` with the guidance message, and the
selected image, its preview, the prompt and any prior result are
untouched. -/
theorem C3_invalid_generate_no_call (s : AppState) (apiKey : Option String)
    (backend : BackendRequest → Except String GenResponse)
    (hnl : s.isLoading = false)
    (h : s.originalImageFile = none ∨ s.prompt = "") :
    handleGenerateStart s = ({ s with error := some guidanceMsg }, false) ∧
    lifecycleState (handleGenerateStart s).1 = LifecycleState.Failed ∧
    (handleGenerateStart s).1.error = some guidanceMsg ∧
    (handleGenerateStart s).1.originalImageFile = s.originalImageFile ∧
    (handleGenerateStart s).1.originalImageUrl = s.originalImageUrl ∧
    (handleGenerateStart s).1.prompt = s.prompt ∧
    (handleGenerateStart s).1.editedImageUrl = s.editedImageUrl ∧
    (handleGenerate apiKey backend s).2 = [] := by
  have hs : handleGenerateStart s = ({ s with error := some guidanceMsg }, false) := by
    simp [handleGenerateStart, h]
  refine ⟨hs, ?_, by rw [hs], by rw [hs], by rw [hs], by rw [hs], by rw [hs], ?_⟩
  · rw [hs]
    simp [lifecycleState, renderOutput, hnl]
  · simp [handleGenerate, hs]

/-- C3, witness: the theorem applied to the initial state (no image
selected, empty prompt). -/
theorem C3_invalid_generate_no_call_witness :
    initialState.isLoading = false ∧
    (initialState.originalImageFile = none ∨ initialState.prompt = "") ∧
    handleGenerateStart initialState =
      ({ initialState with error := some guidanceMsg }, false) ∧
    lifecycleState (handleGenerateStart initialState).1 = LifecycleState.Failed ∧
    (handleGenerate none backendC3 initialState).2 = [] := by
  have h := C3_invalid_generate_no_call initialState none backendC3 rfl (Or.inl rfl)
  exact ⟨rfl, Or.inl rfl, h.1, h.2.1, h.2.2.2.2.2.2.2⟩

/-! ### C4 — credential check versus encoding order -/

/-- An unreadable file (its `FileReader` read errors out). -/
def badFileC4 : ImageFile := { bytes := [1, 2, 3], mimeType := "image/png", readable := false }

/-- An arbitrary backend for the C4 scenarios. -/
def backendC4 : BackendRequest → Except String GenResponse :=
  fun _ => Except.ok { candidates := none }

/-- C4, counterexample. With the credential absent *and* the payload
unreadable, the client fails with the configuration message, not with
either encoding failure: the credential check runs first, contrary to
the claimed Step 1 / Step 2 order. -/
theorem C4_counterexample :
    (editImageWithPrompt none backendC4 badFileC4 "Watercolor").2 = Except.error apiKeyMsg ∧
    apiKeyMsg ≠ readErrorMsg ∧ apiKeyMsg ≠ emptyFileMsg :=
  ⟨rfl, by decide, by decide⟩

/-- C4 (amended): the credential check precedes encoding. With no
credential configured the client fails with the configuration error —
regardless of the payload, even when encoding would also fail — and
with a credential configured, an invocation whose payload cannot be
read or encodes to empty fails with that encoding error. In both
cases no backend request is issued. -/
theorem C4_credential_checked_before_encoding (apiKey : Option String)
    (backend : BackendRequest → Except String GenResponse)
    (file1 file2 : ImageFile) (prompt1 prompt2 m : String)
    (hm : fileToBase64 file1 = Except.error m) :
    editImageWithPrompt apiKey backend file1 prompt1 =
      ([], Except.error (if isTruthy apiKey = true then m else apiKeyMsg)) ∧
    editImageWithPrompt none backend file2 prompt2 = ([], Except.error apiKeyMsg) := by
  constructor
  · rcases hk : isTruthy apiKey with _ | _
    · rw [if_neg (by simp [hk])]
      exact editImageWithPrompt_no_key backend file1 prompt1 apiKey hk
    · rw [if_pos rfl]
      exact editImageWithPrompt_encode_error backend file1 prompt1 apiKey m hk hm
  · exact editImageWithPrompt_no_key backend file2 prompt2 none rfl

/-- C4, witness: the amended theorem at the unreadable file, with and
without the credential. -/
theorem C4_credential_checked_before_encoding_witness :
    fileToBase64 badFileC4 = Except.error readErrorMsg ∧
    editImageWithPrompt (some "key") backendC4 badFileC4 "p" =
      ([], Except.error (if isTruthy (some "key") = true then readErrorMsg else apiKeyMsg)) ∧
    editImageWithPrompt none backendC4 badFileC4 "p" = ([], Except.error apiKeyMsg) := by
  have h := C4_credential_checked_before_encoding (some "key") backendC4 badFileC4 badFileC4
    "p" "p" readErrorMsg rfl
  exact ⟨rfl, h.1, h.2⟩

/-! ### C5 — first image-bearing part, lossless round trip -/

/-- C5: when the backend response's first inline-data part (in response
order, parts before it carrying no inline data) holds the base64
encoding of bytes `B`, the client returns exactly that encoded payload,
the controller displays it as a data URI, and exporting the displayed
URI yields the bytes `B` unchanged. -/
theorem C5_first_image_part_roundtrip (apiKey : Option String)
    (backend : BackendRequest → Except String GenResponse)
    (s : AppState) (file : ImageFile) (resp : GenResponse)
    (B : List Nat) (mt : String) (before after : List Part) (ipart : Part)
    (hkey : isTruthy apiKey = true)
    (hfile : s.originalImageFile = some file)
    (hread : file.readable = true) (hbytes : file.bytes ≠ [])
    (hprompt : s.prompt ≠ "")
    (hresp : ∀ req, backend req = Except.ok resp)
    (hsplitp : responseParts resp = before ++ ipart :: after)
    (hbefore : ∀ q ∈ before, q.inlineData = none)
    (hip : ipart.inlineData = some { data := base64Encode B, mimeType := mt })
    (hB : ∀ b ∈ B, b < 256) :
    (editImageWithPrompt apiKey backend file s.prompt).2 = Except.ok (base64Encode B) ∧
    (handleGenerate apiKey backend s).1.editedImageUrl =
      some ("data:image/png;base64," ++ base64Encode B) ∧
    exportedBytes ("data:image/png;base64," ++ base64Encode B) = some B := by
  have hext : firstInlineData (responseParts resp) = some (base64Encode B) := by
    rw [hsplitp]
    exact firstInlineData_eq_of_split before hbefore ipart after _ hip
  have hclient : editImageWithPrompt apiKey backend file s.prompt =
      ([builtRequest (base64Encode file.bytes) file.mimeType s.prompt],
       Except.ok (base64Encode B)) := by
    rw [editImageWithPrompt_eq_of_ok apiKey backend file s.prompt hkey hread hbytes]
    simp [tryBlock, hresp, hext]
  have hrun := handleGenerate_eq apiKey backend s file hfile hprompt
  rw [hclient] at hrun
  refine ⟨by rw [hclient], ?_, ?_⟩
  · rw [hrun]
    simp [handleGenerateComplete]
  · rw [exportedBytes_pngUri]
    exact decodeGroups_encodeGroups B hB

/-- Uploaded file for the C5 witness. -/
def fileC5 : ImageFile := { bytes := [7, 8], mimeType := "image/jpeg", readable := true }

/-- Result bytes for the C5 witness. -/
def bytesC5 : List Nat := [0, 255, 10]

/-- Leading text-only part of the C5 witness response. -/
def partTextC5 : Part := { text := some "Here is the image." }

/-- Image-bearing part of the C5 witness response: the backend labels
its payload `image/webp`. -/
def partImageC5 : Part :=
  { inlineData := some { data := base64Encode bytesC5, mimeType := "image/webp" } }

/-- C5 witness response: one text part, then the image part. -/
def respC5 : GenResponse :=
  { candidates := some [{ content := some { parts := some [partTextC5, partImageC5] } }] }

/-- Backend of the C5 witness. -/
def backendC5 : BackendRequest → Except String GenResponse := fun _ => Except.ok respC5

/-- Controller state of the C5 witness. -/
def stateC5 : AppState :=
  { initialState with originalImageFile := some fileC5, prompt := "Watercolor" }

/-- C5, witness: the theorem at a concrete two-part response whose
image part carries `bytesC5`. -/
theorem C5_first_image_part_roundtrip_witness :
    (editImageWithPrompt (some "key") backendC5 fileC5 stateC5.prompt).2 =
      Except.ok (base64Encode bytesC5) ∧
    (handleGenerate (some "key") backendC5 stateC5).1.editedImageUrl =
      some ("data:image/png;base64," ++ base64Encode bytesC5) ∧
    exportedBytes ("data:image/png;base64," ++ base64Encode bytesC5) = some bytesC5 :=
  C5_first_image_part_roundtrip (some "key") backendC5 stateC5 fileC5 respC5
    bytesC5 "image/webp" [partTextC5] [] partImageC5
    (by decide) rfl rfl (by decide) (by decide) (fun _ => rfl) rfl
    (by intro q hq; simp only [List.mem_singleton] at hq; rw [hq]; rfl) rfl
    (by decide)

/-! ### C6 — request shape and synthesized instruction -/

/-- Uploaded file for the C6 scenarios. -/
def fileC6 : ImageFile := { bytes := [4, 5, 6], mimeType := "image/png", readable := true }

/-- An arbitrary backend for the C6 scenarios. -/
def backendC6 : BackendRequest → Except String GenResponse :=
  fun _ => Except.ok { candidates := none }

/-- C6, counterexample. The single issued request's parts carry the
instruction text with a capital `A` — `"Apply the following edit to
the image: …"` — and no part carries the claimed lower-case
`"apply the following edit to the image: …"` text. -/
theorem C6_counterexample :
    ((editImageWithPrompt (some "key") backendC6 fileC6 "Watercolor").1.map
        (fun r => r.parts.map (fun p => p.text))) =
      [[none, some "Apply the following edit to the image: Watercolor"]] ∧
    some "Apply the following edit to the image: Watercolor" ≠
      some "apply the following edit to the image: Watercolor" :=
  ⟨rfl, by decide⟩

/-- C6 (amended): every invocation that passes the credential check and
encoding issues exactly one backend request, carrying the
base64-encoded image with its media type, the image-output modality
flag, and the synthesized instruction
`"Apply the following edit to the image: {prompt}"` (capital `A`). -/
theorem C6_single_request_shape (apiKey : Option String)
    (backend : BackendRequest → Except String GenResponse)
    (file : ImageFile) (prompt : String)
    (hkey : isTruthy apiKey = true) (hread : file.readable = true)
    (hbytes : file.bytes ≠ []) :
    (editImageWithPrompt apiKey backend file prompt).1 =
      [builtRequest (base64Encode file.bytes) file.mimeType prompt] ∧
    (builtRequest (base64Encode file.bytes) file.mimeType prompt).model =
      "gemini-2.5-flash-image" ∧
    (builtRequest (base64Encode file.bytes) file.mimeType prompt).parts =
      [{ inlineData := some { data := base64Encode file.bytes, mimeType := file.mimeType } },
       { text := some ("Apply the following edit to the image: " ++ prompt) }] ∧
    (builtRequest (base64Encode file.bytes) file.mimeType prompt).responseModalities =
      [Modality.IMAGE] := by
  refine ⟨?_, rfl, rfl, rfl⟩
  rw [editImageWithPrompt_eq_of_ok apiKey backend file prompt hkey hread hbytes]
  rcases tryBlock backend (builtRequest (base64Encode file.bytes) file.mimeType prompt) with
    e | d <;> rfl

/-- C6, witness: the amended theorem at the concrete file and prompt
`"Watercolor"`. -/
theorem C6_single_request_shape_witness :
    (editImageWithPrompt (some "key") backendC6 fileC6 "Watercolor").1 =
      [builtRequest (base64Encode fileC6.bytes) fileC6.mimeType "Watercolor"] ∧
    (builtRequest (base64Encode fileC6.bytes) fileC6.mimeType "Watercolor").parts =
      [{ inlineData := some { data := base64Encode fileC6.bytes, mimeType := fileC6.mimeType } },
       { text := some ("Apply the following edit to the image: " ++ "Watercolor") }] := by
  have h := C6_single_request_shape (some "key") backendC6 fileC6 "Watercolor"
    (by decide) rfl (by decide)
  exact ⟨h.1, h.2.2.1⟩

/-! ### C7 — SelectImage effects -/

/-- Uploaded file for the C7 scenarios. -/
def fileC7 : ImageFile := { bytes := [9], mimeType := "image/jpeg", readable := true }

/-- A state in which a generation is in flight. -/
def loadingStateC7 : AppState := { initialState with isLoading := true }

/-- C7, counterexample. Selecting an image while a generation is in
flight leaves the lifecycle in `Loading`, not `Idle`: the upload
handler never touches `isLoading`. -/
theorem C7_counterexample :
    lifecycleState (handleImageUpload (some fileC7) loadingStateC7 initialEnv).1 =
      LifecycleState.Loading ∧
    lifecycleState (handleImageUpload (some fileC7) loadingStateC7 initialEnv).1 ≠
      LifecycleState.Idle := by decide

/-- C7 (amended): `SelectImage` with a file present replaces the
selected image, derives a fresh preview handle, clears the prior
result and error, and leaves the prompt alone; the lifecycle returns
to `Idle` whenever no generation is in flight, while an in-flight
`Loading` state persists. -/
theorem C7_upload_replaces_and_clears (s : AppState) (e : UrlEnv) (file : ImageFile) :
    (handleImageUpload (some file) s e).1.originalImageFile = some file ∧
    (handleImageUpload (some file) s e).1.originalImageUrl = some e.nextUrl ∧
    (handleImageUpload (some file) s e).2.created = e.created ++ [e.nextUrl] ∧
    (handleImageUpload (some file) s e).1.editedImageUrl = none ∧
    (handleImageUpload (some file) s e).1.error = none ∧
    (handleImageUpload (some file) s e).1.prompt = s.prompt ∧
    (s.isLoading = false →
      lifecycleState (handleImageUpload (some file) s e).1 = LifecycleState.Idle) ∧
    (s.isLoading = true →
      lifecycleState (handleImageUpload (some file) s e).1 = LifecycleState.Loading) := by
  refine ⟨rfl, rfl, rfl, rfl, rfl, rfl, ?_, ?_⟩
  · intro h
    simp [handleImageUpload, createObjectURL, lifecycleState, renderOutput, h]
  · intro h
    simp [handleImageUpload, createObjectURL, lifecycleState, renderOutput, h]

/-- C7, witness: the theorem at the initial (idle) state. -/
theorem C7_upload_replaces_and_clears_witness :
    initialState.isLoading = false ∧
    (handleImageUpload (some fileC7) initialState initialEnv).1.originalImageFile =
      some fileC7 ∧
    (handleImageUpload (some fileC7) initialState initialEnv).1.editedImageUrl = none ∧
    lifecycleState (handleImageUpload (some fileC7) initialState initialEnv).1 =
      LifecycleState.Idle := by
  have h := C7_upload_replaces_and_clears initialState initialEnv fileC7
  exact ⟨rfl, h.1, h.2.2.2.1, h.2.2.2.2.2.2.1 rfl⟩

/-! ### C8 — lifecycle/render invariant -/

/-- C8: in every controller state, the rendered output respects the
lifecycle invariant — `Loading` renders neither a result image nor an
error, a result image and an error are never rendered simultaneously,
and `Succeeded`/`Failed` each imply the loading flag is off. -/
theorem C8_lifecycle_render_invariant (s : AppState) :
    (lifecycleState s = LifecycleState.Loading →
      ∀ u, renderOutput s ≠ ViewState.resultView u) ∧
    (lifecycleState s = LifecycleState.Loading →
      ∀ m, renderOutput s ≠ ViewState.errorView m) ∧
    (∀ u m, ¬(renderOutput s = ViewState.resultView u ∧
              renderOutput s = ViewState.errorView m)) ∧
    (lifecycleState s = LifecycleState.Succeeded → s.isLoading = false) ∧
    (lifecycleState s = LifecycleState.Failed → s.isLoading = false) := by
  unfold lifecycleState renderOutput
  rcases hl : s.isLoading <;> rcases he : s.error with _ | m0 <;>
    rcases hi : s.editedImageUrl with _ | u0 <;> simp [hl, he, hi]

/-- C8, witness: the invariant at a loading state. -/
theorem C8_lifecycle_render_invariant_witness :
    lifecycleState { initialState with isLoading := true } = LifecycleState.Loading ∧
    renderOutput { initialState with isLoading := true } ≠ ViewState.resultView "u" ∧
    renderOutput { initialState with isLoading := true } ≠ ViewState.errorView "m" :=
  ⟨by decide,
   (C8_lifecycle_render_invariant { initialState with isLoading := true }).1 (by decide) "u",
   (C8_lifecycle_render_invariant { initialState with isLoading := true }).2.1 (by decide) "m"⟩

/-! ### C9 — preview resources are never released -/

/-- First uploaded file of the C9 scenario. -/
def fileC9a : ImageFile := { bytes := [1], mimeType := "image/png", readable := true }

/-- Second uploaded file of the C9 scenario. -/
def fileC9b : ImageFile := { bytes := [2], mimeType := "image/webp", readable := true }

/-- C9: no controller event ever revokes an object URL — the source
contains no `URL.revokeObjectURL` call — so after selecting a second
image both preview handles are still live: the prior preview resource
is retained, not released, violating the claimed at-most-one-resource
invariant. -/
theorem C9_preview_urls_never_released :
    (∀ (init : AppState × UrlEnv) (evts : List Event),
      (run init evts).2.revoked = init.2.revoked) ∧
    liveUrls (run (initialState, initialEnv)
      [Event.upload (some fileC9a), Event.upload (some fileC9b)]).2 = [0, 1] ∧
    (run (initialState, initialEnv)
      [Event.upload (some fileC9a), Event.upload (some fileC9b)]).1.originalImageUrl =
      some 1 := by
  refine ⟨?_, by decide, by decide⟩
  intro init evts
  induction evts generalizing init with
  | nil => rfl
  | cons ev rest ih =>
    have hstep : (step init ev).2.revoked = init.2.revoked := by
      rcases init with ⟨s, e⟩
      cases ev with
      | upload f? => cases f? with
        | none => rfl
        | some f => rfl
      | setPrompt v => rfl
      | generateStart => rfl
      | generateComplete o => rfl
    exact (ih (step init ev)).trans hstep

/-! ### C10 — PNG labelling and fixed download name -/

/-- C10: every successful generation is displayed under the
`data:image/png;base64,` label — whatever the uploaded file's media
type and whatever payload the backend produced — and `Download()`
exports it under the fixed name `gemini-styled-image.png`. -/
theorem C10_png_label_and_fixed_name (apiKey : Option String)
    (backend : BackendRequest → Except String GenResponse)
    (s : AppState) (file : ImageFile) (d : String)
    (hfile : s.originalImageFile = some file) (hprompt : s.prompt ≠ "")
    (hok : (editImageWithPrompt apiKey backend file s.prompt).2 = Except.ok d) :
    (handleGenerate apiKey backend s).1.editedImageUrl =
      some ("data:image/png;base64," ++ d) ∧
    ("data:image/png;base64," ++ d).data.take 22 = "data:image/png;base64,".data ∧
    handleDownload (handleGenerate apiKey backend s).1 =
      some ("data:image/png;base64," ++ d, "gemini-styled-image.png") := by
  have hrun := handleGenerate_eq apiKey backend s file hfile hprompt
  rw [hok] at hrun
  have htake : ("data:image/png;base64," ++ d).data.take 22 =
      "data:image/png;base64,".data := by
    have hlen : ("data:image/png;base64,".data).length = 22 := by decide
    have : ("data:image/png;base64," ++ d).data =
        "data:image/png;base64,".data ++ d.data := rfl
    rw [this, ← hlen]
    exact List.take_left _ _
  refine ⟨?_, htake, ?_⟩
  · rw [hrun]
    simp [handleGenerateComplete]
  · rw [hrun]
    simp [handleGenerateComplete, handleDownload]

/-- Uploaded WEBP file of the C10 witness. -/
def fileC10 : ImageFile := { bytes := [3, 1, 4], mimeType := "image/webp", readable := true }

/-- Image-bearing part of the C10 witness, labelled `image/jpeg` by
the backend. -/
def partImageC10 : Part := { inlineData := some { data := "QUJD", mimeType := "image/jpeg" } }

/-- C10 witness response. -/
def respC10 : GenResponse :=
  { candidates := some [{ content := some { parts := some [partImageC10] } }] }

/-- Backend of the C10 witness. -/
def backendC10 : BackendRequest → Except String GenResponse := fun _ => Except.ok respC10

/-- Controller state of the C10 witness. -/
def stateC10 : AppState :=
  { initialState with originalImageFile := some fileC10, prompt := "Anime style" }

/-- C10, witness: a WEBP upload whose result the backend labels JPEG
is still displayed as a PNG data URI and downloaded under the fixed
PNG name. -/
theorem C10_png_label_and_fixed_name_witness :
    (handleGenerate (some "key") backendC10 stateC10).1.editedImageUrl =
      some ("data:image/png;base64," ++ "QUJD") ∧
    handleDownload (handleGenerate (some "key") backendC10 stateC10).1 =
      some ("data:image/png;base64," ++ "QUJD", "gemini-styled-image.png") := by
  have h := C10_png_label_and_fixed_name (some "key") backendC10 stateC10 fileC10 "QUJD"
    rfl (by decide) rfl
  exact ⟨h.1, h.2.2⟩

end ImageVectorizer
